import Mathlib

/-!
Verification of the vault semantic-search retriever
(`skills/vault-search/scripts/search.py`).

The Python `search` function embeds the query text, runs a nearest-neighbour
scan over the `vec_chunks` table (`ORDER BY distance LIMIT fetch_limit`),
LEFT JOINs the `notes` metadata table on `path`, applies the optional
folder/WHERE filters, re-orders by distance, truncates to `n_results`, and
shapes every surviving row into a result dictionary.

Embedding choices:
* The embedder is an external collaborator; for a fixed query it induces one
  distance per indexed chunk.  A `Db` therefore records, for the query under
  consideration, every chunk row together with its vector distance (field
  `distance`), plus the `notes` table.  Quantifying over `Db` quantifies over
  index states and query texts at once.
* Distances are rationals: the claims only use their linear order.
* The `notes` table is keyed uniquely by `path` (spec data model: "path as
  unique key"; the indexer that enforces it is outside the sources), so the
  SQL LEFT JOIN is modelled as lookup of the unique matching note.
* The raw SQL `WHERE` fragment supplied by the caller is modelled by its
  denotation: a boolean predicate over the joined row.  A supplied but empty
  `where` string is falsy in Python (`if where:`) and is modelled as `none`.
* `json.loads` on the stored `tags` column is modelled for the fragment it is
  used on: JSON arrays of strings (the data model stores tags as an ordered
  sequence of strings).  Parse failure (`none`) models the raised
  `json.JSONDecodeError`; `\u` escapes are not modelled.
-/

/-- Python slice `s[:n]`, operating on code points exactly as Python `str`
slicing does. -/
def pySlice (s : String) (n : Nat) : String := String.mk (s.data.take n)

/-- Python truthiness of an optional string (`if folder:` / `if where:` /
`if row[10]:`): `None` and the empty string are falsy. -/
def pyTruthy : Option String → Bool
  | none => false
  | some s => !s.data.isEmpty

/-- JSON whitespace accepted between tokens by `json.loads`. -/
def isJsonWs (c : Char) : Bool := c = ' ' || c = '\t' || c = '\n' || c = '\r'

/-- Decoding of a single JSON escape character (the character following a
backslash inside a string literal).  `\uXXXX` escapes are outside the
modelled fragment and are rejected. -/
def escDecode (c : Char) : Option Char :=
  if c = '"' then some '"'
  else if c = '\\' then some '\\'
  else if c = '/' then some '/'
  else if c = 'n' then some '\n'
  else if c = 't' then some '\t'
  else if c = 'r' then some '\r'
  else if c = 'b' then some (Char.ofNat 8)
  else if c = 'f' then some (Char.ofNat 12)
  else none

/-- Parser state for the `json.loads` fragment handling arrays of strings.
`acc` collects the decoded items (most recent first); `cur` collects the
characters of the string literal being read (reversed). -/
inductive JState where
  | expectOpen
  | expectFirst (acc : List (List Char))
  | inStr (acc : List (List Char)) (cur : List Char)
  | esc (acc : List (List Char)) (cur : List Char)
  | afterStr (acc : List (List Char))
  | expectStr (acc : List (List Char))
  | done (acc : List (List Char))
  | fail
deriving DecidableEq

/-- One step of the JSON string-array parser. -/
def jstep : JState → Char → JState
  | .expectOpen, c =>
    if isJsonWs c then .expectOpen else if c = '[' then .expectFirst [] else .fail
  | .expectFirst acc, c =>
    if isJsonWs c then .expectFirst acc
    else if c = '"' then .inStr acc []
    else if c = ']' then .done acc
    else .fail
  | .inStr acc cur, c =>
    if c = '"' then .afterStr (cur.reverse :: acc)
    else if c = '\\' then .esc acc cur
    else if c.toNat < 32 then .fail
    else .inStr acc (c :: cur)
  | .esc acc cur, c =>
    match escDecode c with
    | some d => .inStr acc (d :: cur)
    | none => .fail
  | .afterStr acc, c =>
    if isJsonWs c then .afterStr acc
    else if c = ',' then .expectStr acc
    else if c = ']' then .done acc
    else .fail
  | .expectStr acc, c =>
    if isJsonWs c then .expectStr acc
    else if c = '"' then .inStr acc []
    else .fail
  | .done acc, c => if isJsonWs c then .done acc else .fail
  | .fail, _ => .fail

/-- Extraction of the parsed items from the final parser state: only a
complete array yields a value. -/
def jfinal : JState → Option (List String)
  | .done acc => some (acc.reverse.map String.mk)
  | _ => none

/-- Model of `json.loads` restricted to the fragment exercised on the stored
`tags` column: a JSON array of string literals.  `none` models the raised
`json.JSONDecodeError`. -/
def pyJsonLoadsTags (s : String) : Option (List String) :=
  jfinal (s.data.foldl jstep JState.expectOpen)

/-- Modelled from the spec: the storage serialization of the tags sequence
(the index builder is outside the sources).  Per the spec data model, tags
are "stored as an ordered sequence of strings", serialized as a JSON list
such as `["a","b"]`.  Encoding of the items of such a list. -/
def dumpsItems : List String → List Char
  | [] => [']']
  | t :: ts =>
    '"' :: t.data ++ '"' :: (if ts.isEmpty then [']'] else ',' :: dumpsItems ts)

/-- Modelled from the spec: serialization of a tags sequence as a JSON list
of strings, e.g. `["a","b"]`. -/
def pyJsonDumpsTags (ts : List String) : String := String.mk ('[' :: dumpsItems ts)

/-- Characters that a JSON serializer emits unescaped inside a string
literal: not a quote, not a backslash, not a control character. -/
def plainChar (c : Char) : Prop := c ≠ '"' ∧ c ≠ '\\' ∧ 32 ≤ c.toNat

instance (c : Char) : Decidable (plainChar c) := by
  unfold plainChar; infer_instance

/-- A tag string whose serialization needs no escape sequences. -/
def plainTag (t : String) : Prop := ∀ c ∈ t.data, plainChar c

instance (t : String) : Decidable (plainTag t) := by
  unfold plainTag; infer_instance

/-- SQLite `LIKE` folds ASCII letters case-insensitively by default. -/
def likeLower (c : Char) : Char :=
  if 'A' ≤ c ∧ c ≤ 'Z' then Char.ofNat (c.toNat + 32) else c

/-- SQLite `LIKE` matcher with explicit fuel (the fuel only serves to make
the definition structurally recursive; `sqliteLike` supplies enough).
`%` matches any run of characters, `_` any single character, other
characters match up to ASCII case folding. -/
def likeFuel : Nat → List Char → List Char → Bool
  | 0, _, _ => false
  | _ + 1, [], s => s.isEmpty
  | f + 1, c :: ps, s =>
    if c = '%' then
      likeFuel f ps s ||
        (match s with
         | [] => false
         | _ :: s' => likeFuel f (c :: ps) s')
    else
      match s with
      | [] => false
      | d :: s' =>
        if c = '_' then likeFuel f ps s'
        else decide (likeLower c = likeLower d) && likeFuel f ps s'

/-- SQLite `expr LIKE pattern` on character lists. -/
def sqliteLike (p s : List Char) : Bool := likeFuel (p.length + s.length + 1) p s

/-- Claim-side notion of "starts with": code-point prefix, as Python
`str.startswith` would decide it. -/
def pyStartsWith (s pre : String) : Bool := pre.data.isPrefixOf s.data

/-- Claim-side notion of the ellipsis truncation marker being present in a
snippet: the snippet ends with `"..."` (the marker is appended at the end
when the code truncates). -/
def markerPresent (s : String) : Bool := ['.', '.', '.'].isSuffixOf s.data

/-- Row of the `vec_chunks` virtual table as seen by one query: the chunk
columns selected at lines 112–117 of `search.py`, with `distance` the vector
distance of the chunk's embedding from the query embedding. -/
structure ChunkRow where
  chunk_id : String
  path : String
  heading : Option String
  chunk_text : String
  distance : ℚ
deriving DecidableEq

/-- Row of the `notes` metadata table (columns used at lines 105–110 of
`search.py`).  All metadata columns are nullable; `path` is the unique key. -/
structure Note where
  path : String
  title : Option String
  folder : Option String
  status : Option String
  priority : Option String
  due : Option String
  tags : Option String
deriving DecidableEq

/-- Index state visible to one query: the chunk rows (with their distances
for this query's embedding) and the notes table. -/
structure Db where
  chunks : List ChunkRow
  notes : List Note
deriving DecidableEq

/-- Denotation of the caller-supplied raw SQL `WHERE` fragment: a boolean
predicate over the joined row (chunk columns and the joined note, `none`
when the LEFT JOIN found no note, in which case every `n.*` column is NULL). -/
def WPred : Type := ChunkRow → Option Note → Bool

/-- One clause of the `where_clauses` list built at lines 87–91 of
`search.py`: either the folder clause `n.folder LIKE '{folder}%'` or the
parenthesized raw fragment `({where})`. -/
inductive WhereClause where
  | folderClause (f : String)
  | rawClause (p : WPred)

/-- Lines 87–91: `where_clauses` starts empty; `if folder:` appends the
folder LIKE clause; `if where:` appends the raw fragment.  A supplied but
empty `where` string is falsy and is modelled as `none`. -/
def buildWhereClauses (folder : Option String) (whereQ : Option WPred) :
    List WhereClause :=
  (match folder with
   | some f => if f.data.isEmpty then [] else [WhereClause.folderClause f]
   | none => []) ++
  (match whereQ with
   | some p => [WhereClause.rawClause p]
   | none => [])

/-- Truth of one WHERE clause on a joined row, with SQL three-valued logic
collapsed to "the row is kept": `NULL LIKE pattern` is not true, so a row
whose join produced no note, or whose note has a NULL folder, is dropped by
the folder clause. -/
def rowPassesClause (c : ChunkRow) (no : Option Note) : WhereClause → Bool
  | .folderClause f =>
    match no with
    | none => false
    | some n =>
      match n.folder with
      | none => false
      | some fol => sqliteLike (f.data ++ ['%']) fol.data
  | .rawClause p => p c no

/-- Conjunction of the clauses (`" AND ".join(where_clauses)`, line 95). -/
def rowPasses (c : ChunkRow) (no : Option Note) (clauses : List WhereClause) :
    Bool :=
  clauses.all (rowPassesClause c no)

/-- Line 130: `fetch_limit = n_results * 3 if where_clauses else n_results`
(Python truthiness of a list: non-empty). -/
def fetchLimit (n_results : Nat) (clauses : List WhereClause) : Nat :=
  if clauses.isEmpty then n_results else n_results * 3

/-- LEFT JOIN lookup: the unique note whose `path` equals the chunk's. -/
def lookupNote (notes : List Note) (p : String) : Option Note :=
  notes.find? (fun n => n.path = p)

/-- Inner subquery (lines 111–122): chunks ordered by ascending distance,
limited to `lim` rows. -/
def scanWindow (chunks : List ChunkRow) (lim : Nat) : List ChunkRow :=
  (chunks.insertionSort (fun a b => a.distance ≤ b.distance)).take lim

/-- The scan window LEFT JOINed with the notes table on `path` (line 123). -/
def joinedRows (db : Db) (lim : Nat) : List (ChunkRow × Option Note) :=
  (scanWindow db.chunks lim).map (fun c => (c, lookupNote db.notes c.path))

/-- Rows surviving the WHERE clauses, re-ordered by ascending distance
(outer `ORDER BY c.distance`, line 125): the `rows` fetched at line 134. -/
def searchRows (db : Db) (n_results : Nat) (folder : Option String)
    (whereQ : Option WPred) : List (ChunkRow × Option Note) :=
  let clauses := buildWhereClauses folder whereQ
  ((joinedRows db (fetchLimit n_results clauses)).filter
      (fun r => rowPasses r.1 r.2 clauses)).insertionSort
    (fun a b => a.1.distance ≤ b.1.distance)

/-- Line 147: `row[3][:300] + "..." if len(row[3]) > 300 else row[3]`. -/
def mkSnippet (t : String) : String :=
  if t.length > 300 then pySlice t 300 ++ "..." else t

/-- Line 154: `json.loads(row[10]) if row[10] else []`.  The stored column is
NULL (`none`) when the note is missing or its tags are unset; NULL and the
empty string are falsy.  `none` in the result models the uncaught
deserialization exception. -/
def tagsDecoded (stored : Option String) : Option (List String) :=
  if pyTruthy stored then
    match stored with
    | some s => pyJsonLoadsTags s
    | none => some []
  else some []

/-- Lines 143–155: the result dictionary built from one row; `none` models
the `json.loads` call raising on a malformed stored tags value. -/
structure SearchResult where
  chunk_id : String
  path : String
  heading : Option String
  snippet : String
  distance : ℚ
  title : Option String
  folder : Option String
  status : Option String
  priority : Option String
  due : Option String
  tags : List String
deriving DecidableEq

/-- Shape one joined row into a result (lines 143–155). -/
def mkResult (c : ChunkRow) (no : Option Note) : Option SearchResult :=
  match tagsDecoded (no.bind Note.tags) with
  | some ts =>
    some
      { chunk_id := c.chunk_id
        path := c.path
        heading := c.heading
        snippet := mkSnippet c.chunk_text
        distance := c.distance
        title := no.bind Note.title
        folder := no.bind Note.folder
        status := no.bind Note.status
        priority := no.bind Note.priority
        due := no.bind Note.due
        tags := ts }
  | none => none

/-- The result-building loop of lines 141–156: builds results left to right,
aborting (exception) at the first row whose tags fail to deserialize. -/
def buildResults : List (ChunkRow × Option Note) → Option (List SearchResult)
  | [] => some []
  | r :: rest =>
    match mkResult r.1 r.2 with
    | none => none
    | some x =>
      match buildResults rest with
      | none => none
      | some xs => some (x :: xs)

/-- The pure core of `search` (lines 86–159 without the I/O failure modes):
`rows[:n_results]` shaped into result dictionaries.  `none` models an
uncaught exception while building results. -/
def search (db : Db) (n_results : Nat) (folder : Option String)
    (whereQ : Option WPred) : Option (List SearchResult) :=
  buildResults ((searchRows db n_results folder whereQ).take n_results)

/-- Termination status of one execution of the Python `search` function. -/
inductive Outcome where
  | ok (rs : List SearchResult)
  | exitDbMissing
  | exitSqlError
  | raised
deriving DecidableEq

/-- Observable final state of one execution: its outcome and whether the
sqlite connection opened at line 70 is still open when `search` terminates. -/
structure ExecResult where
  outcome : Outcome
  connOpen : Bool
deriving DecidableEq

/-- Control-flow model of the whole `search` function (lines 64–159),
tracking the sqlite connection.  `embedOk` models the embedding backend call
at lines 76–77 succeeding (it runs after the connection is opened at line 70
and is not guarded); `sqlOk` models `conn.execute` not raising
`sqlite3.Error` (the one failure the code catches at lines 135–138, closing
the connection before `sys.exit(1)`).  An exception while building results
(malformed stored tags, lines 141–156) propagates before `conn.close()` at
line 158 is reached. -/
def searchExec (dbExists embedOk sqlOk : Bool) (db : Db) (n_results : Nat)
    (folder : Option String) (whereQ : Option WPred) : ExecResult :=
  if !dbExists then ⟨.exitDbMissing, false⟩
  else if !embedOk then ⟨.raised, true⟩
  else if !sqlOk then ⟨.exitSqlError, false⟩
  else
    match search db n_results folder whereQ with
    | some rs => ⟨.ok rs, false⟩
    | none => ⟨.raised, true⟩

/-- Spec-side notion of "a filter is active": a folder filter or a
structured predicate was supplied (non-trivially, matching the spec's "No
filters active").  Written from the spec's words for comparison with the
code's `where_clauses` test. -/
def filterActive (folder : Option String) (whereQ : Option WPred) : Bool :=
  pyTruthy folder || whereQ.isSome

/-- All chunks of the full index whose joined document metadata passes the
active clauses — the "qualifying candidates" of the over-fetch discussion,
independent of any fetch window. -/
def qualifyingRows (db : Db) (clauses : List WhereClause) :
    List (ChunkRow × Option Note) :=
  (db.chunks.map (fun c => (c, lookupNote db.notes c.path))).filter
    (fun r => rowPasses r.1 r.2 clauses)

/-- Example index: two chunks in two documents, one under `Work/`, with tags
stored both as a serialized list and as NULL. -/
def exDb : Db :=
  { chunks := [⟨"c2", "p2", none, "t2", 2⟩, ⟨"c1", "p1", some "h", "t1", 1⟩],
    notes :=
      [⟨"p1", some "T1", some "Work/A", none, none, none, some "[\"a\",\"b\"]"⟩,
       ⟨"p2", some "T2", some "Other", none, none, none, none⟩] }

/-- The result `search` builds for chunk `c1` of `exDb`. -/
def exRes1 : SearchResult :=
  ⟨"c1", "p1", some "h", "t1", 1, some "T1", some "Work/A", none, none, none,
    ["a", "b"]⟩

/-- The result `search` builds for chunk `c2` of `exDb`. -/
def exRes2 : SearchResult :=
  ⟨"c2", "p2", none, "t2", 2, some "T2", some "Other", none, none, none, []⟩

/-- Example index whose single document stores a tags value that is not
valid JSON. -/
def exBadDb : Db :=
  { chunks := [⟨"c1", "p1", none, "t1", 0⟩],
    notes := [⟨"p1", none, some "F", none, none, none, some "not json"⟩] }

/-- Example index for the over-fetch shortfall: the three nearest chunks all
live in folder `B`, the fourth in folder `A`. -/
def exDb3 : Db :=
  { chunks :=
      [⟨"c1", "p1", none, "t1", 1⟩, ⟨"c2", "p2", none, "t2", 2⟩,
       ⟨"c3", "p3", none, "t3", 3⟩, ⟨"c4", "p4", none, "t4", 4⟩],
    notes :=
      [⟨"p1", none, some "B", none, none, none, none⟩,
       ⟨"p2", none, some "B", none, none, none, none⟩,
       ⟨"p3", none, some "B", none, none, none, none⟩,
       ⟨"p4", none, some "A", none, none, none, none⟩] }

/-- Example index with one document in folder `Work/x`, queried with the
lowercase folder filter `work`. -/
def exDb5 : Db :=
  { chunks := [⟨"c1", "p1", none, "t1", 0⟩],
    notes := [⟨"p1", none, some "Work/x", none, none, none, none⟩] }

/-- The result `search` builds for the single chunk of `exDb5`. -/
def exRes5 : SearchResult :=
  ⟨"c1", "p1", none, "t1", 0, none, some "Work/x", none, none, none, []⟩

/-- Claim-side predicate: the result's folder column LIKE-matches the folder
pattern `f%` (the semantics the interpolated SQL actually enforces). -/
def folderMatchesLike (f : String) (r : SearchResult) : Bool :=
  match r.folder with
  | some fol => sqliteLike (f.data ++ ['%']) fol.data
  | none => false

/-- A 301-character chunk text, long enough to be truncated. -/
def exLongText : String := String.mk (List.replicate 301 'a')

instance : IsTotal (ChunkRow × Option Note)
    (fun a b => a.1.distance ≤ b.1.distance) :=
  ⟨fun _ _ => le_total _ _⟩

instance : IsTrans (ChunkRow × Option Note)
    (fun a b => a.1.distance ≤ b.1.distance) :=
  ⟨fun _ _ _ => le_trans⟩

theorem mkResult_distance {c : ChunkRow} {no : Option Note} {r : SearchResult}
    (h : mkResult c no = some r) : r.distance = c.distance := by
  unfold mkResult at h
  cases hts : tagsDecoded (no.bind Note.tags) with
  | none => rw [hts] at h; exact Option.noConfusion h
  | some ts => rw [hts] at h; injection h with h; subst h; rfl

theorem mkResult_folder {c : ChunkRow} {no : Option Note} {r : SearchResult}
    (h : mkResult c no = some r) : r.folder = no.bind Note.folder := by
  unfold mkResult at h
  cases hts : tagsDecoded (no.bind Note.tags) with
  | none => rw [hts] at h; exact Option.noConfusion h
  | some ts => rw [hts] at h; injection h with h; subst h; rfl

theorem buildResults_length {l : List (ChunkRow × Option Note)}
    {rs : List SearchResult} (h : buildResults l = some rs) :
    rs.length = l.length := by
  induction l generalizing rs with
  | nil => unfold buildResults at h; injection h with h; subst h; rfl
  | cons a l ih =>
    unfold buildResults at h
    cases hm : mkResult a.1 a.2 with
    | none => rw [hm] at h; exact Option.noConfusion h
    | some x =>
      rw [hm] at h
      cases hb : buildResults l with
      | none => rw [hb] at h; exact Option.noConfusion h
      | some xs =>
        rw [hb] at h; injection h with h; subst h
        simp [ih hb]

theorem buildResults_distances {l : List (ChunkRow × Option Note)}
    {rs : List SearchResult} (h : buildResults l = some rs) :
    rs.map SearchResult.distance = l.map (fun r => r.1.distance) := by
  induction l generalizing rs with
  | nil => unfold buildResults at h; injection h with h; subst h; rfl
  | cons a l ih =>
    unfold buildResults at h
    cases hm : mkResult a.1 a.2 with
    | none => rw [hm] at h; exact Option.noConfusion h
    | some x =>
      rw [hm] at h
      cases hb : buildResults l with
      | none => rw [hb] at h; exact Option.noConfusion h
      | some xs =>
        rw [hb] at h; injection h with h; subst h
        simp [mkResult_distance hm, ih hb]

theorem buildResults_mem {l : List (ChunkRow × Option Note)}
    {rs : List SearchResult} (h : buildResults l = some rs) {r : SearchResult}
    (hr : r ∈ rs) : ∃ row ∈ l, mkResult row.1 row.2 = some r := by
  induction l generalizing rs with
  | nil =>
    unfold buildResults at h; injection h with h; subst h
    exact absurd hr (List.not_mem_nil r)
  | cons a l ih =>
    unfold buildResults at h
    cases hm : mkResult a.1 a.2 with
    | none => rw [hm] at h; exact Option.noConfusion h
    | some x =>
      rw [hm] at h
      cases hb : buildResults l with
      | none => rw [hb] at h; exact Option.noConfusion h
      | some xs =>
        rw [hb] at h; injection h with h; subst h
        rcases List.mem_cons.mp hr with hrx | hrxs
        · exact ⟨a, List.mem_cons_self a l, hrx ▸ hm⟩
        · obtain ⟨row, hrow, hres⟩ := ih hb hrxs
          exact ⟨row, List.mem_cons_of_mem a hrow, hres⟩

theorem searchRows_sorted (db : Db) (n_results : Nat) (folder : Option String)
    (whereQ : Option WPred) :
    List.Sorted (fun a b => a.1.distance ≤ b.1.distance)
      (searchRows db n_results folder whereQ) := by
  unfold searchRows
  exact List.sorted_insertionSort _ _

theorem joinedRows_length (db : Db) (lim : Nat) :
    (joinedRows db lim).length = lim ⊓ db.chunks.length := by
  unfold joinedRows scanWindow
  simp [List.length_take, List.length_insertionSort]

theorem searchRows_length_le_chunks (db : Db) (n_results : Nat)
    (folder : Option String) (whereQ : Option WPred) :
    (searchRows db n_results folder whereQ).length ≤ db.chunks.length := by
  unfold searchRows
  rw [List.length_insertionSort]
  calc (List.filter _ (joinedRows db _)).length
      ≤ (joinedRows db _).length := List.length_filter_le _ _
    _ ≤ db.chunks.length := by rw [joinedRows_length]; exact inf_le_right

theorem searchRows_no_filters (db : Db) (n_results : Nat) :
    (searchRows db n_results none none).length =
      n_results ⊓ db.chunks.length := by
  unfold searchRows buildWhereClauses
  simp [rowPasses, fetchLimit, List.length_insertionSort, joinedRows_length]

/-- C1: for every index state, requested count, and combination of folder
and structured filters, the number of results returned by `search` never
exceeds the requested `n_results`. -/
theorem search_count_le_requested (db : Db) (n_results : Nat)
    (folder : Option String) (whereQ : Option WPred)
    (rs : List SearchResult)
    (h : search db n_results folder whereQ = some rs) :
    rs.length ≤ n_results := by
  unfold search at h
  rw [buildResults_length h]
  exact List.length_take_le _ _

/-- Witness for C1 at a concrete index and query. -/
theorem search_count_le_requested_witness :
    search exDb 1 none none = some [exRes1] ∧ [exRes1].length ≤ 1 :=
  ⟨by decide, search_count_le_requested exDb 1 none none [exRes1] (by decide)⟩

/-- C2: for every index state and every combination of filters, the result
sequence returned by `search` is sorted by monotonically non-decreasing
distance. -/
theorem search_sorted_by_distance (db : Db) (n_results : Nat)
    (folder : Option String) (whereQ : Option WPred)
    (rs : List SearchResult)
    (h : search db n_results folder whereQ = some rs) :
    List.Sorted (fun a b => a.distance ≤ b.distance) rs := by
  unfold search at h
  have hmap := buildResults_distances h
  have hs : List.Sorted (fun a b => a.1.distance ≤ b.1.distance)
      ((searchRows db n_results folder whereQ).take n_results) :=
    List.Pairwise.sublist (List.take_sublist _ _)
      (searchRows_sorted db n_results folder whereQ)
  have h1 : List.Pairwise (fun a b : ℚ => a ≤ b)
      (((searchRows db n_results folder whereQ).take n_results).map
        (fun r => r.1.distance)) :=
    List.pairwise_map.mpr hs
  rw [← hmap] at h1
  exact List.pairwise_map.mp h1

/-- Witness for C2 at a concrete index with two results. -/
theorem search_sorted_by_distance_witness :
    search exDb 5 none none = some [exRes1, exRes2] ∧
      List.Sorted (fun a b => a.distance ≤ b.distance) [exRes1, exRes2] :=
  ⟨by decide,
   search_sorted_by_distance exDb 5 none none [exRes1, exRes2] (by decide)⟩

/-- C4: the candidate window requested from the vector index (the SQL LIMIT
argument) is `n_results` when no filter is active and `3 * n_results` when
at least one folder or structured filter is active. -/
theorem fetch_window_size (n_results : Nat) (folder : Option String)
    (whereQ : Option WPred) :
    fetchLimit n_results (buildWhereClauses folder whereQ) =
      if filterActive folder whereQ then 3 * n_results else n_results := by
  cases folder with
  | none =>
    cases whereQ <;>
      simp [fetchLimit, buildWhereClauses, filterActive, pyTruthy,
        Nat.mul_comm]
  | some f =>
    cases whereQ <;>
      cases hf : f.data.isEmpty <;>
        simp [fetchLimit, buildWhereClauses, filterActive, pyTruthy, hf,
          Nat.mul_comm]

/-- C6: with the index state, query, and `n_results` fixed, a search with
any filters active returns at most as many results as the same search with
no filters. -/
theorem filtered_count_le_unfiltered (db : Db) (n_results : Nat)
    (folder : Option String) (whereQ : Option WPred)
    (rs rs' : List SearchResult)
    (h : search db n_results folder whereQ = some rs)
    (h' : search db n_results none none = some rs') :
    rs.length ≤ rs'.length := by
  unfold search at h h'
  rw [buildResults_length h, buildResults_length h', List.length_take,
    List.length_take, searchRows_no_filters]
  have h1 : (searchRows db n_results folder whereQ).length ≤
      db.chunks.length :=
    searchRows_length_le_chunks db n_results folder whereQ
  calc n_results ⊓ (searchRows db n_results folder whereQ).length
      ≤ n_results ⊓ db.chunks.length := inf_le_inf_left _ h1
    _ = n_results ⊓ (n_results ⊓ db.chunks.length) := by
        rw [← inf_assoc, inf_idem]

/-- Witness for C6: a folder filter on `exDb` keeps one of two results. -/
theorem filtered_count_le_unfiltered_witness :
    search exDb 5 (some "Work") none = some [exRes1] ∧
      search exDb 5 none none = some [exRes1, exRes2] ∧
      [exRes1].length ≤ [exRes1, exRes2].length :=
  ⟨by decide, by decide,
   filtered_count_le_unfiltered exDb 5 (some "Work") none [exRes1]
     [exRes1, exRes2] (by decide) (by decide)⟩

/-- C3 counterexample: with `n_results = 1` and an active folder filter, the
full index of `exDb3` contains a qualifying chunk (`c4`, folder `A`), yet
`search` returns no results: the three nearest chunks exhaust the 3×1 fetch
window and all fail the filter. -/
theorem overfetch_shortfall_counterexample :
    (buildWhereClauses (some "A") none).length = 1 ∧
      1 ≤ (qualifyingRows exDb3 (buildWhereClauses (some "A") none)).length ∧
      search exDb3 1 (some "A") none = some [] := by
  refine ⟨rfl, by decide, by decide⟩

/-- C3 amended: with at least one active filter, if at least `n_results` of
the rows inside the fetched 3×`n_results` window satisfy all active filters,
then `search` returns exactly `n_results` results.  Qualifying chunks beyond
the fixed over-fetch window can still be missed. -/
theorem overfetch_fill_within_window (db : Db) (n_results : Nat)
    (folder : Option String) (whereQ : Option WPred)
    (rs : List SearchResult)
    (_hact : filterActive folder whereQ = true)
    (hn : n_results ≤ (searchRows db n_results folder whereQ).length)
    (h : search db n_results folder whereQ = some rs) :
    rs.length = n_results := by
  unfold search at h
  rw [buildResults_length h, List.length_take]
  exact inf_eq_left.mpr hn

/-- Witness for the amended C3 at a concrete filtered query. -/
theorem overfetch_fill_within_window_witness :
    filterActive (some "Work") none = true ∧
      1 ≤ (searchRows exDb 1 (some "Work") none).length ∧
      search exDb 1 (some "Work") none = some [exRes1] ∧
      [exRes1].length = 1 :=
  ⟨by decide, by decide, by decide,
   overfetch_fill_within_window exDb 1 (some "Work") none [exRes1] (by decide)
     (by decide) (by decide)⟩

/-- C5 counterexample: the interpolated SQL `LIKE` is ASCII-case-insensitive,
so the folder filter `work` returns a result whose folder is `Work/x`, which
does not start with the supplied string. -/
theorem folder_startswith_counterexample :
    search exDb5 1 (some "work") none = some [exRes5] ∧
      exRes5.folder = some "Work/x" ∧
      pyStartsWith "Work/x" "work" = false := by
  refine ⟨by decide, by decide, by decide⟩

/-- C5 amended: when a non-empty folder filter `f` is supplied, every
returned result has a non-NULL document folder that matches the SQLite
pattern `f` followed by `%` under `LIKE` semantics (ASCII-case-insensitive,
`%`/`_` treated as wildcards) — the plain starts-with property only follows
when `f` is wildcard-free and case matches. -/
theorem folder_filter_like_matched (db : Db) (n_results : Nat) (f : String)
    (whereQ : Option WPred) (rs : List SearchResult) (r : SearchResult)
    (hf : pyTruthy (some f) = true)
    (h : search db n_results (some f) whereQ = some rs) (hr : r ∈ rs) :
    folderMatchesLike f r = true := by
  unfold search at h
  obtain ⟨row, hrow, hres⟩ := buildResults_mem h hr
  have hrow2 : row ∈ searchRows db n_results (some f) whereQ :=
    List.take_subset _ _ hrow
  unfold searchRows at hrow2
  rw [List.mem_insertionSort] at hrow2
  have hpass := (List.mem_filter.mp hrow2).2
  have hf' : f.data.isEmpty = false := by simpa [pyTruthy] using hf
  have hcl : WhereClause.folderClause f ∈
      buildWhereClauses (some f) whereQ := by
    simp [buildWhereClauses, hf']
  have hcl2 := List.all_eq_true.mp hpass _ hcl
  have hrf : r.folder = row.2.bind Note.folder := mkResult_folder hres
  cases hno : row.2 with
  | none =>
    rw [hno] at hcl2
    simp [rowPassesClause] at hcl2
  | some note =>
    rw [hno] at hcl2
    cases hfol : note.folder with
    | none => simp [rowPassesClause, hfol] at hcl2
    | some fol =>
      have hrf2 : r.folder = some fol := by rw [hrf, hno]; exact hfol
      unfold folderMatchesLike
      rw [hrf2]
      simpa [rowPassesClause, hfol] using hcl2

/-- Witness for the amended C5 at a concrete filtered query. -/
theorem folder_filter_like_matched_witness :
    pyTruthy (some "work") = true ∧
      search exDb5 1 (some "work") none = some [exRes5] ∧
      exRes5 ∈ [exRes5] ∧ folderMatchesLike "work" exRes5 = true :=
  ⟨by decide, by decide, by decide,
   folder_filter_like_matched exDb5 1 "work" none [exRes5] exRes5 (by decide)
     (by decide) (by decide)⟩

/-- C7 counterexample: for the three-character chunk text `...` the snippet
carries the ellipsis marker even though the text does not exceed 300
characters, so "marker present iff text exceeds 300 characters" fails. -/
theorem snippet_marker_iff_counterexample :
    ¬(markerPresent (mkSnippet "...") = true ↔
        300 < ("..." : String).length) := by decide

/-- C7 amended: every snippet has length at most 303; a chunk text longer
than 300 characters is truncated to its first 300 characters with the
ellipsis marker appended (so the marker is present); a chunk text of at most
300 characters is passed through unchanged (so the marker appears only if
the text itself ends with it). -/
theorem snippet_bounds (t : String) :
    (mkSnippet t).length ≤ 303 ∧
      (300 < t.length →
        mkSnippet t = pySlice t 300 ++ "..." ∧
          markerPresent (mkSnippet t) = true) ∧
      (t.length ≤ 300 → mkSnippet t = t) := by
  by_cases h : 300 < t.length
  · refine ⟨?_, fun _ => ⟨?_, ?_⟩, fun hle => absurd h (by omega)⟩
    · unfold mkSnippet
      rw [if_pos h, String.length_append]
      have e1 : (pySlice t 300).length = 300 ⊓ t.data.length :=
        List.length_take 300 t.data
      have e2 : ("..." : String).length = 3 := rfl
      rw [e1, e2]
      exact add_le_add_right inf_le_left 3
    · unfold mkSnippet
      rw [if_pos h]
    · unfold mkSnippet markerPresent
      rw [if_pos h, String.data_append]
      have e3 : ("..." : String).data = ['.', '.', '.'] := rfl
      rw [e3]
      exact List.isSuffixOf_iff_suffix.mpr (List.suffix_append _ _)
  · refine ⟨?_, fun hgt => absurd hgt h, fun _ => ?_⟩
    · unfold mkSnippet
      rw [if_neg h]
      omega
    · unfold mkSnippet
      rw [if_neg h]

/-- Witness for the amended C7 at a 301-character chunk text. -/
theorem snippet_bounds_witness :
    (mkSnippet exLongText).length ≤ 303 ∧
      (300 < exLongText.length →
        mkSnippet exLongText = pySlice exLongText 300 ++ "..." ∧
          markerPresent (mkSnippet exLongText) = true) ∧
      (exLongText.length ≤ 300 → mkSnippet exLongText = exLongText) :=
  snippet_bounds exLongText

theorem stringMk_data (s : String) : String.mk s.data = s := rfl

theorem stringData_mk (l : List Char) : (String.mk l).data = l := rfl

theorem map_mk_data : ∀ l : List String, l.map (String.mk ∘ String.data) = l
  | [] => rfl
  | a :: l => by rw [List.map_cons, map_mk_data l]; rfl

theorem foldl_jstep_plain (l : List Char) (acc : List (List Char))
    (cur : List Char) (hp : ∀ c ∈ l, plainChar c) :
    l.foldl jstep (JState.inStr acc cur) =
      JState.inStr acc (l.reverse ++ cur) := by
  induction l generalizing cur with
  | nil => simp
  | cons c l ih =>
    obtain ⟨h1, h2, h3⟩ := hp c (List.mem_cons_self c l)
    have h4 : ¬c.toNat < 32 := by omega
    have hstep : jstep (JState.inStr acc cur) c =
        JState.inStr acc (c :: cur) := by
      simp [jstep, h1, h2, h4]
    rw [List.foldl_cons, hstep,
      ih (c :: cur) (fun x hx => hp x (List.mem_cons_of_mem c hx))]
    simp

theorem foldl_jstep_string_end (a : List (List Char)) (X : List Char) :
    List.foldl jstep (JState.inStr a X) ['"', ']'] =
      JState.done (X.reverse :: a) := rfl

theorem foldl_jstep_string_sep (a : List (List Char)) (X : List Char)
    (rest : List Char) :
    List.foldl jstep (JState.inStr a X) ('"' :: ',' :: '"' :: rest) =
      List.foldl jstep (JState.inStr (X.reverse :: a) []) rest := rfl

theorem foldl_jstep_open (L : List Char) :
    List.foldl jstep JState.expectOpen ('[' :: '"' :: L) =
      List.foldl jstep (JState.inStr [] []) L := rfl

theorem jfinal_done (A : List (List Char)) :
    jfinal (JState.done A) = some (A.reverse.map String.mk) := rfl

theorem foldl_jstep_items :
    ∀ (ts : List String) (t : String) (acc : List (List Char)),
      plainTag t → (∀ x ∈ ts, plainTag x) →
      (t.data ++ '"' ::
          (if ts.isEmpty then [']'] else ',' :: dumpsItems ts)).foldl jstep
          (JState.inStr acc []) =
        JState.done (((t :: ts).map String.data).reverse ++ acc) := by
  intro ts
  induction ts with
  | nil =>
    intro t acc hpt _
    rw [show (if (List.isEmpty (α := String) []) then [']']
          else ',' :: dumpsItems []) = [']'] from rfl,
      List.foldl_append, foldl_jstep_plain t.data acc [] hpt,
      foldl_jstep_string_end]
    simp
  | cons t' ts' ih =>
    intro t acc hpt hp
    rw [show (if (t' :: ts').isEmpty then [']']
          else ',' :: dumpsItems (t' :: ts')) = ',' :: dumpsItems (t' :: ts')
        from rfl,
      show dumpsItems (t' :: ts') =
          '"' :: (t'.data ++ '"' ::
            (if ts'.isEmpty then [']'] else ',' :: dumpsItems ts')) from rfl,
      List.foldl_append, foldl_jstep_plain t.data acc [] hpt,
      foldl_jstep_string_sep]
    have hih := ih t' ((t.data.reverse ++ []).reverse :: acc)
      (hp t' (List.mem_cons_self t' ts'))
      (fun x hx => hp x (List.mem_cons_of_mem t' hx))
    rw [hih]
    simp

theorem loads_dumps_roundtrip (ts : List String)
    (hp : ∀ t ∈ ts, plainTag t) :
    pyJsonLoadsTags (pyJsonDumpsTags ts) = some ts := by
  cases ts with
  | nil => rfl
  | cons t ts' =>
    unfold pyJsonLoadsTags pyJsonDumpsTags
    rw [show dumpsItems (t :: ts') =
        '"' :: (t.data ++ '"' ::
          (if ts'.isEmpty then [']'] else ',' :: dumpsItems ts')) from rfl,
      stringData_mk, foldl_jstep_open,
      foldl_jstep_items ts' t [] (hp t (List.mem_cons_self t ts'))
        (fun x hx => hp x (List.mem_cons_of_mem t hx)),
      jfinal_done, List.append_nil, List.reverse_reverse, List.map_map,
      map_mk_data]

theorem tagsDecoded_dumps (ts : List String) (hp : ∀ t ∈ ts, plainTag t) :
    tagsDecoded (some (pyJsonDumpsTags ts)) = some ts :=
  loads_dumps_roundtrip ts hp

/-- C8: a tags column storing the serialized JSON list of a tag sequence is
exposed in the result as that sequence (ordered, intact), and an absent
(NULL) tags column yields the empty sequence — the result's `tags` field is
always a present, non-null list. -/
theorem tags_roundtrip (c : ChunkRow) (note : Note) (ts : List String)
    (hp : ∀ t ∈ ts, plainTag t) :
    (note.tags = some (pyJsonDumpsTags ts) →
      (mkResult c (some note)).map SearchResult.tags = some ts) ∧
    (note.tags = none →
      (mkResult c (some note)).map SearchResult.tags = some []) := by
  constructor
  · intro ht
    unfold mkResult
    have hb : (some note).bind Note.tags = some (pyJsonDumpsTags ts) := ht
    rw [hb, tagsDecoded_dumps ts hp]
    rfl
  · intro ht
    unfold mkResult
    have hb : (some note).bind Note.tags = none := ht
    rw [hb]
    rfl

/-- Witness for C8: the serialized list `["a","b"]` round-trips through a
concrete result, with the hypotheses checked by evaluation. -/
theorem tags_roundtrip_witness :
    (∀ t ∈ (["a", "b"] : List String), plainTag t) ∧
      (⟨"p1", none, none, none, none, none,
          some "[\"a\",\"b\"]"⟩ : Note).tags =
        some (pyJsonDumpsTags ["a", "b"]) ∧
      (mkResult ⟨"c1", "p1", none, "t", 0⟩
          (some ⟨"p1", none, none, none, none, none,
            some "[\"a\",\"b\"]"⟩)).map SearchResult.tags =
        some ["a", "b"] :=
  ⟨by decide, by decide,
   (tags_roundtrip ⟨"c1", "p1", none, "t", 0⟩
       ⟨"p1", none, none, none, none, none, some "[\"a\",\"b\"]"⟩
       ["a", "b"] (by decide)).1 (by decide)⟩

/-- C9 refutation (the code contradicts the spec's guaranteed-release
requirement): an embedding-backend failure, and equally a tags
deserialization failure during result construction, terminate `search` with
the sqlite connection still open — only the caught `sqlite3.Error` path and
the success path close it. -/
theorem connection_left_open_on_raise :
    (searchExec true false true exDb 5 none none).connOpen = true ∧
      searchExec true true true exBadDb 1 none none =
        ⟨Outcome.raised, true⟩ := by
  refine ⟨by decide, by decide⟩

/-- C10: the stored tags value `not json` (non-empty, not valid JSON) makes
`search` raise an unhandled deserialization exception while building
results — the vector scan itself succeeds (one row is fetched), yet no
result list is returned. -/
theorem tags_deserialization_raises :
    pyJsonLoadsTags "not json" = none ∧
      (searchRows exBadDb 1 none none).length = 1 ∧
      search exBadDb 1 none none = none ∧
      (searchExec true true true exBadDb 1 none none).outcome =
        Outcome.raised := by
  refine ⟨by decide, by decide, by decide, by decide⟩
